import Mathlib

set_option maxRecDepth 100000

/-!
Verification development for `src/scripts/archive/test-iokit-ep2.c`.

The program is a single `main` that acquires an IOKit USB device
(match -> device plugin/query -> open with seize fallback -> set
configuration -> interface iterator -> interface plugin/query ->
interface open), enumerates pipes, performs two standalone writes, then
streams 200 frames to pipe 1 with a 25 ms sleep after each send, and
finally tears the handles down.

Shallow embedding: every external IOKit/libc call outcome is an input
supplied by an `Env` oracle; `run` mirrors the control flow of `main`
and produces the process exit code together with a trace of the calls
the program performs on its handles.  Status codes are natural numbers
with `0` standing for `KERN_SUCCESS` / `kIOReturnSuccess`.  A `none`
result of `run` models divergence (the pipe-enumeration loop can fail
to terminate, see `pipeLoopF`).
-/

namespace IOKitEp2

/-- The raw IOKit objects the program releases with `IOObjectRelease`:
the device-matching iterator, the matched device service, the interface
iterator and the interface service. -/
inductive ObjKind
  | deviceIterator
  | deviceService
  | interfaceIterator
  | interfaceService
  deriving DecidableEq

/-- One observable call made by the program, recording the handle
operations of `main`.  Events record the calls and their inputs; the
statuses the calls return live in `Env`. -/
inductive Event
  | releaseIOObject (k : ObjKind)
  | pluginQueryDevice
  | pluginReleaseDevice
  | usbDeviceOpen
  | usbDeviceOpenSeize
  | setConfiguration (idx : Nat)
  | createInterfaceIterator
  | pluginQueryInterface
  | pluginReleaseInterface
  | usbInterfaceOpen
  | getNumEndpoints
  | getPipeProperties (i : Nat)
  | writePipe (pipe : Nat) (data : List Nat)
  | usleep (us : Nat)
  | usbDeviceClose
  | releaseDeviceInterface
  | usbInterfaceClose
  | releaseInterfaceInterface
  deriving DecidableEq

/-- Oracle for the results of every external call in the program.
`Bool` fields model pointer null-checks (`true` = non-null / found),
`Nat` fields model returned status codes (`0` = success).  Fields that
the program only prints (`setConfigurationKr`, `usbInterfaceOpenKr`,
`getNumEndpointsKr`, `getPipePropertiesKr`) are part of the model so
that independence from them can be stated.  `writePipeKr n` is the
status of the `n`-th `WritePipe` call of the whole run (calls 0 and 1
are the standalone writes to pipes 1 and 2, the streaming loop starts
at call 2). -/
structure Env where
  matchingDictOk : Bool
  getMatchingServicesKr : Nat
  deviceFound : Bool
  devicePluginKr : Nat
  deviceQueryFail : Bool
  usbDeviceOpenKr : Nat
  usbDeviceOpenSeizeKr : Nat
  setConfigurationKr : Nat
  createInterfaceIteratorKr : Nat
  interfaceFound : Bool
  interfacePluginKr : Nat
  interfaceQueryFail : Bool
  usbInterfaceOpenKr : Nat
  numEndpoints : Nat
  getNumEndpointsKr : Nat
  getPipePropertiesKr : Nat → Nat
  writePipeKr : Nat → Nat

/-- Result of a terminating run: the process exit status together with
the trace of observable calls. -/
structure RunResult where
  exitCode : Nat
  trace : List Event
  deriving DecidableEq

/-- The frame buffer of the program: `UInt8 dmx[514]`, `memset` to zero,
then `dmx[0] = 255; dmx[1] = 225; dmx[4] = 255; dmx[512] = 0xFF;
dmx[513] = 0xFF;`. -/
def dmx : List Nat :=
  (((((List.replicate 514 0).set 0 255).set 1 225).set 4 255).set 512 255).set 513 255

/-- The streaming loop (`for (int i = 0; i < 200; i++)`): each
iteration calls `WritePipe(1, dmx, 514)`; when the status is non-zero
and `i == 0` the loop breaks before the sleep, otherwise it sleeps
25000 µs and continues.  `wc` is the global `WritePipe` call counter,
`i` the loop counter, the last argument the remaining iterations. -/
def streamLoop (env : Env) : Nat → Nat → Nat → List Event
  | _, _, 0 => []
  | wc, i, rem + 1 =>
    if env.writePipeKr wc ≠ 0 ∧ i = 0 then
      [Event.writePipe 1 dmx]
    else
      Event.writePipe 1 dmx :: Event.usleep 25000 ::
        streamLoop env (wc + 1) (i + 1) rem

/-- The pipe-enumeration loop
`for (UInt8 i = 1; i <= numEndpoints; i++) GetPipeProperties(i);`
with the `UInt8` counter modelled as a natural number reduced mod 256.
The loop itself never inspects the per-pipe statuses.  The `fuel`
argument makes the function total: `none` means the fuel ran out
before the loop exited (for `k = 255` the exit condition can never
hold, so the loop diverges for every fuel). -/
def pipeLoopF : Nat → Nat → Nat → Option (List Event)
  | _, _, 0 => none
  | k, i, fuel + 1 =>
    if k < i then some []
    else
      match pipeLoopF k ((i + 1) % 256) fuel with
      | none => none
      | some t => some (Event.getPipeProperties i :: t)

/-- The pipe-enumeration phase for a reported endpoint count `k`:
the loop starting at index 1, with enough fuel for every terminating
count (`k ≤ 254` needs at most 255 steps). -/
def pipePhase (k : Nat) : Option (List Event) :=
  pipeLoopF k 1 256

/-- The `USBDeviceClose` / `Release(deviceInterface)` pair run by every
failure exit after the device was opened. -/
def teardownDev : List Event :=
  [Event.usbDeviceClose, Event.releaseDeviceInterface]

/-- The tail of `main` after the device has been opened (lines 92-199
of the source): set configuration (status only printed), interface
iterator, interface plugin/query, interface open (status only
printed), endpoint count, pipe enumeration, the standalone writes to
pipes 1 and 2, the 200-frame streaming loop, and the final teardown.
`t0` is the trace accumulated so far. -/
def afterOpen (env : Env) (t0 : List Event) : Option RunResult :=
  let t := t0 ++ [Event.setConfiguration 1]
  let t := t ++ [Event.createInterfaceIterator]
  if env.createInterfaceIteratorKr ≠ 0 then some ⟨1, t ++ teardownDev⟩ else
  let t := t ++ [Event.releaseIOObject ObjKind.interfaceIterator]
  if env.interfaceFound = false then some ⟨1, t ++ teardownDev⟩ else
  let t := t ++ [Event.releaseIOObject ObjKind.interfaceService]
  if env.interfacePluginKr ≠ 0 then some ⟨1, t ++ teardownDev⟩ else
  let t := t ++ [Event.pluginQueryInterface, Event.pluginReleaseInterface]
  if env.interfaceQueryFail = true then some ⟨1, t ++ teardownDev⟩ else
  let t := t ++ [Event.usbInterfaceOpen, Event.getNumEndpoints]
  match pipePhase (env.numEndpoints % 256) with
  | none => none
  | some pt =>
    let t := t ++ pt
    let t := t ++ [Event.writePipe 1 dmx, Event.writePipe 2 dmx]
    let t := t ++ streamLoop env 2 0 200
    some ⟨0, t ++ [Event.usbInterfaceClose, Event.releaseInterfaceInterface,
                   Event.usbDeviceClose, Event.releaseDeviceInterface]⟩

/-- The whole of `main`: device matching, device plugin/query, open
with the single seize fallback, then `afterOpen`.  Early `return 1`
paths produce exit code 1 together with the trace accumulated up to
that point. -/
def run (env : Env) : Option RunResult :=
  if env.matchingDictOk = false then some ⟨1, []⟩ else
  if env.getMatchingServicesKr ≠ 0 then some ⟨1, []⟩ else
  let t := [Event.releaseIOObject ObjKind.deviceIterator]
  if env.deviceFound = false then some ⟨1, t⟩ else
  let t := t ++ [Event.releaseIOObject ObjKind.deviceService]
  if env.devicePluginKr ≠ 0 then some ⟨1, t⟩ else
  let t := t ++ [Event.pluginQueryDevice, Event.pluginReleaseDevice]
  if env.deviceQueryFail = true then some ⟨1, t⟩ else
  let t := t ++ [Event.usbDeviceOpen]
  if env.usbDeviceOpenKr ≠ 0 then
    let t := t ++ [Event.usbDeviceOpenSeize]
    if env.usbDeviceOpenSeizeKr ≠ 0 then
      some ⟨1, t ++ [Event.releaseDeviceInterface]⟩
    else afterOpen env t
  else afterOpen env t

/-- Step 1 (Match) succeeded: matching dictionary built, registry
search succeeded, a device was found. -/
def matchOk (env : Env) : Prop :=
  env.matchingDictOk = true ∧ env.getMatchingServicesKr = 0 ∧ env.deviceFound = true

/-- Step 2 (BindDeviceInterface) succeeded: device plugin created and
device interface obtained. -/
def bindDeviceOk (env : Env) : Prop :=
  env.devicePluginKr = 0 ∧ env.deviceQueryFail = false

/-- Step 3 (OpenDevice) succeeded: the exclusive open or the single
seize fallback succeeded. -/
def openOk (env : Env) : Prop :=
  env.usbDeviceOpenKr = 0 ∨ env.usbDeviceOpenSeizeKr = 0

/-- Step 5 (FindInterface) succeeded: iterator created and it yielded
an interface. -/
def findInterfaceOk (env : Env) : Prop :=
  env.createInterfaceIteratorKr = 0 ∧ env.interfaceFound = true

/-- Step 6 (BindInterfaceInterface) succeeded: interface plugin created
and interface interface obtained. -/
def bindInterfaceOk (env : Env) : Prop :=
  env.interfacePluginKr = 0 ∧ env.interfaceQueryFail = false

/-- The device interface handle was acquired (steps 1-2 succeeded). -/
def deviceAcquired (env : Env) : Prop :=
  matchOk env ∧ bindDeviceOk env

/-- The device was opened (steps 1-3 succeeded). -/
def deviceOpened (env : Env) : Prop :=
  deviceAcquired env ∧ openOk env

/-- The interface interface handle was acquired (steps 1-3, 5-6
succeeded).  Steps 4 and 7 have no success condition: their statuses
are only printed. -/
def intfAcquired (env : Env) : Prop :=
  deviceOpened env ∧ findInterfaceOk env ∧ bindInterfaceOk env

instance (env : Env) : Decidable (matchOk env) := by
  unfold matchOk; infer_instance

instance (env : Env) : Decidable (bindDeviceOk env) := by
  unfold bindDeviceOk; infer_instance

instance (env : Env) : Decidable (openOk env) := by
  unfold openOk; infer_instance

instance (env : Env) : Decidable (findInterfaceOk env) := by
  unfold findInterfaceOk; infer_instance

instance (env : Env) : Decidable (bindInterfaceOk env) := by
  unfold bindInterfaceOk; infer_instance

instance (env : Env) : Decidable (deviceAcquired env) := by
  unfold deviceAcquired; infer_instance

instance (env : Env) : Decidable (deviceOpened env) := by
  unfold deviceOpened; infer_instance

instance (env : Env) : Decidable (intfAcquired env) := by
  unfold intfAcquired; infer_instance

/-- Events that close or release one of the two interface handles (the
teardown operations of the session). -/
def teardownEvent : Event → Bool
  | Event.usbInterfaceClose => true
  | Event.releaseInterfaceInterface => true
  | Event.usbDeviceClose => true
  | Event.releaseDeviceInterface => true
  | _ => false

/-- Negation of `teardownEvent`, for `dropWhile` / `takeWhile`. -/
def notTeardown (e : Event) : Bool := !(teardownEvent e)

/-- Events that reference the device interface handle. -/
def refsDevice : Event → Bool
  | Event.usbDeviceOpen => true
  | Event.usbDeviceOpenSeize => true
  | Event.setConfiguration _ => true
  | Event.createInterfaceIterator => true
  | Event.usbDeviceClose => true
  | Event.releaseDeviceInterface => true
  | _ => false

/-- Events that reference the interface interface handle. -/
def refsIntf : Event → Bool
  | Event.usbInterfaceOpen => true
  | Event.getNumEndpoints => true
  | Event.getPipeProperties _ => true
  | Event.writePipe _ _ => true
  | Event.usbInterfaceClose => true
  | Event.releaseInterfaceInterface => true
  | _ => false

/-- The close/release suffix a terminating session must end with,
as a function of which handles were actually acquired and opened. -/
def teardownTrace (env : Env) : List Event :=
  if intfAcquired env then
    [Event.usbInterfaceClose, Event.releaseInterfaceInterface,
     Event.usbDeviceClose, Event.releaseDeviceInterface]
  else if deviceOpened env then teardownDev
  else if deviceAcquired env then [Event.releaseDeviceInterface]
  else []

/-- An environment in which every external call succeeds, the device
and interface are found, and the interface reports one endpoint: the
end-to-end success scenario. -/
def okEnv : Env where
  matchingDictOk := true
  getMatchingServicesKr := 0
  deviceFound := true
  devicePluginKr := 0
  deviceQueryFail := false
  usbDeviceOpenKr := 0
  usbDeviceOpenSeizeKr := 0
  setConfigurationKr := 0
  createInterfaceIteratorKr := 0
  interfaceFound := true
  interfacePluginKr := 0
  interfaceQueryFail := false
  usbInterfaceOpenKr := 0
  numEndpoints := 1
  getNumEndpointsKr := 0
  getPipePropertiesKr := fun _ => 0
  writePipeKr := fun _ => 0

/-- The trace of the success scenario `okEnv`. -/
def okTrace : List Event :=
  [Event.releaseIOObject ObjKind.deviceIterator,
   Event.releaseIOObject ObjKind.deviceService,
   Event.pluginQueryDevice, Event.pluginReleaseDevice,
   Event.usbDeviceOpen,
   Event.setConfiguration 1,
   Event.createInterfaceIterator,
   Event.releaseIOObject ObjKind.interfaceIterator,
   Event.releaseIOObject ObjKind.interfaceService,
   Event.pluginQueryInterface, Event.pluginReleaseInterface,
   Event.usbInterfaceOpen, Event.getNumEndpoints,
   Event.getPipeProperties 1,
   Event.writePipe 1 dmx, Event.writePipe 2 dmx] ++
  streamLoop okEnv 2 0 200 ++
  [Event.usbInterfaceClose, Event.releaseInterfaceInterface,
   Event.usbDeviceClose, Event.releaseDeviceInterface]

/-- `okEnv` with every `WritePipe` call failing, so the very first
send of the streaming loop fails. -/
def failWriteEnv : Env :=
  { okEnv with writePipeKr := fun _ => 7 }

/-- `okEnv` with the exclusive open failing and the seize fallback
succeeding. -/
def seizeEnv : Env :=
  { okEnv with usbDeviceOpenKr := 5 }

/-- `okEnv` with both open attempts failing (step 3 fatal failure). -/
def openFailEnv : Env :=
  { okEnv with usbDeviceOpenKr := 5, usbDeviceOpenSeizeKr := 6 }

/-- `okEnv` with a reported endpoint count of 255, the value at which
the `UInt8` enumeration loop never terminates. -/
def env255 : Env :=
  { okEnv with numEndpoints := 255 }

/-- Trace of a run through steps 1-2: iterator release, device-service
release, device plugin query and plugin release. -/
def bindTrace : List Event :=
  [Event.releaseIOObject ObjKind.deviceIterator,
   Event.releaseIOObject ObjKind.deviceService,
   Event.pluginQueryDevice, Event.pluginReleaseDevice]

/-- Trace of the open step: the exclusive attempt alone when it
succeeds, otherwise followed by the single seize attempt. -/
def openTrace (env : Env) : List Event :=
  if env.usbDeviceOpenKr = 0 then [Event.usbDeviceOpen]
  else [Event.usbDeviceOpen, Event.usbDeviceOpenSeize]

/-- Trace of steps 4-7 on the path where they all run: configuration,
interface iterator (created and drained), interface plugin/query,
interface open, endpoint count. -/
def intfTrace : List Event :=
  [Event.setConfiguration 1, Event.createInterfaceIterator,
   Event.releaseIOObject ObjKind.interfaceIterator,
   Event.releaseIOObject ObjKind.interfaceService,
   Event.pluginQueryInterface, Event.pluginReleaseInterface,
   Event.usbInterfaceOpen, Event.getNumEndpoints]

/-- The full-success teardown: interface close, interface release,
device close, device release (source lines 193-196). -/
def teardownFull : List Event :=
  [Event.usbInterfaceClose, Event.releaseInterfaceInterface,
   Event.usbDeviceClose, Event.releaseDeviceInterface]

/-- The frame described by the spec's end-to-end scenario: 514 zero
bytes with only byte 0 set to 255.  Written from the spec's words, for
comparison with the program's `dmx`. -/
def specFrame : List Nat := (List.replicate 514 0).set 0 255

/-- `true` for every event strictly before the standalone write to
pipe 2 (the unique `WritePipe(2, dmx)` call of a run). -/
def beforeStream (e : Event) : Bool := !(e == Event.writePipe 2 dmx)

/-! ### General list helpers -/

theorem dropWhile_append_all {α : Type} (p : α → Bool) (l1 l2 : List α)
    (h : ∀ a ∈ l1, p a = true) :
    (l1 ++ l2).dropWhile p = l2.dropWhile p := by
  induction l1 with
  | nil => rfl
  | cons x xs ih =>
      simp only [List.cons_append, List.dropWhile_cons, h x (by simp)]
      exact ih fun a ha => h a (by simp [ha])

theorem takeWhile_append_all {α : Type} (p : α → Bool) (l1 l2 : List α)
    (h : ∀ a ∈ l1, p a = true) :
    (l1 ++ l2).takeWhile p = l1 ++ l2.takeWhile p := by
  induction l1 with
  | nil => simp
  | cons x xs ih =>
      simp only [List.cons_append, List.takeWhile_cons, h x (by simp), if_true]
      rw [ih fun a ha => h a (by simp [ha])]

theorem count_join_replicate (n : Nat) (l : List Event) (e : Event) :
    (List.flatten (List.replicate n l)).count e = n * l.count e := by
  induction n with
  | zero => simp
  | succ m ih =>
      simp [List.replicate_succ, List.count_append, ih, Nat.succ_mul, Nat.add_comm]

/-! ### Structure of the streaming loop -/

/-- Once the loop counter is positive the abort condition can never
fire again: the remaining iterations are exactly `rem` send/sleep
pairs, whatever the write statuses are. -/
theorem streamLoop_tail (env : Env) :
    ∀ rem wc i, 1 ≤ i →
      streamLoop env wc i rem =
        List.flatten (List.replicate rem [Event.writePipe 1 dmx, Event.usleep 25000]) := by
  intro rem
  induction rem with
  | zero => intro wc i _; simp [streamLoop]
  | succ m ih =>
      intro wc i hi
      have hcond : ¬(env.writePipeKr wc ≠ 0 ∧ i = 0) := by
        rintro ⟨_, rfl⟩; omega
      simp [streamLoop, hcond, ih (wc + 1) (i + 1) (by omega), List.replicate_succ]

/-- Every event of the streaming loop is a send of `dmx` to pipe 1 or
an interval sleep. -/
theorem streamLoop_mem (env : Env) :
    ∀ rem wc i e, e ∈ streamLoop env wc i rem →
      e = Event.writePipe 1 dmx ∨ e = Event.usleep 25000 := by
  intro rem
  induction rem with
  | zero => intro wc i e h; simp [streamLoop] at h
  | succ m ih =>
      intro wc i e h
      by_cases hc : env.writePipeKr wc ≠ 0 ∧ i = 0
      · simp [streamLoop, hc] at h
        exact Or.inl h
      · simp only [streamLoop, if_neg hc, List.mem_cons] at h
        rcases h with h | h | h


        · exact Or.inl h
        · exact Or.inr h
        · exact ih _ _ _ h

/-- The streaming loop depends on the write-status oracle only at call
indices at least `wc`. -/
theorem streamLoop_congr (env env' : Env) :
    ∀ rem wc i, (∀ n, wc ≤ n → env'.writePipeKr n = env.writePipeKr n) →
      streamLoop env' wc i rem = streamLoop env wc i rem := by
  intro rem
  induction rem with
  | zero => intro wc i _; simp [streamLoop]
  | succ m ih =>
      intro wc i hagree
      simp only [streamLoop, hagree wc (Nat.le_refl wc)]
      rw [ih (wc + 1) (i + 1) fun n hn => hagree n (by omega)]

/-! ### Structure of the pipe-enumeration loop -/

/-- Every event the enumeration produces is a `GetPipeProperties`
query. -/
theorem pipeLoopF_mem :
    ∀ fuel k i t, pipeLoopF k i fuel = some t →
      ∀ e ∈ t, ∃ j, e = Event.getPipeProperties j := by
  intro fuel
  induction fuel with
  | zero => intro k i t h; simp [pipeLoopF] at h
  | succ n ih =>
      intro k i t h e he
      by_cases hk : k < i
      · simp [pipeLoopF, hk] at h
        subst h
        simp at he
      · simp only [pipeLoopF, if_neg hk] at h
        cases hrec : pipeLoopF k ((i + 1) % 256) n with
        | none => rw [hrec] at h; simp at h
        | some t2 =>
            rw [hrec] at h
            simp only [Option.some.injEq] at h
            subst h
            rcases List.mem_cons.1 he with h1 | h1
            · exact ⟨i, h1⟩
            · exact ih _ _ _ hrec e h1

/-- For a terminating endpoint count (`k ≤ 254`) the loop performs
exactly the queries at indices `i`, `i+1`, …, `k`, one per index,
regardless of what the individual queries return. -/
theorem pipeLoopF_sound :
    ∀ n i fuel k, 1 ≤ i → i + n = k + 1 → n < fuel → k ≤ 254 →
      pipeLoopF k i fuel =
        some ((List.range n).map fun j => Event.getPipeProperties (i + j)) := by
  intro n
  induction n with
  | zero =>
      intro i fuel k hi hik hf hk
      obtain ⟨f, rfl⟩ : ∃ f, fuel = f + 1 := ⟨fuel - 1, by omega⟩
      have hlt : k < i := by omega
      simp [pipeLoopF, hlt]
  | succ m ih =>
      intro i fuel k hi hik hf hk
      obtain ⟨f, rfl⟩ : ∃ f, fuel = f + 1 := ⟨fuel - 1, by omega⟩
      have h1 : ¬ k < i := by omega
      have h2 : (i + 1) % 256 = i + 1 := Nat.mod_eq_of_lt (by omega)
      simp only [pipeLoopF, if_neg h1, h2]
      rw [ih (i + 1) f k (by omega) (by omega) (by omega) hk]
      simp [List.range_succ_eq_map, List.map_map, Function.comp,
        Nat.add_assoc, Nat.add_comm, Nat.add_left_comm]

/-- With a reported endpoint count of 255 the `UInt8` loop counter can
never exceed the count: the loop body runs whatever fuel is supplied
(the loop does not terminate). -/
theorem pipeLoopF_none : ∀ fuel i, i ≤ 255 → pipeLoopF 255 i fuel = none := by
  intro fuel
  induction fuel with
  | zero => intro i _; rfl
  | succ n ih =>
      intro i hi
      have h1 : ¬ (255 < i) := by omega
      have h2 : (i + 1) % 256 ≤ 255 := by omega
      simp [pipeLoopF, h1, ih _ h2]

/-! ### Shape of the run -/

/-- On the open path, `run` is `afterOpen` on the bind trace followed
by the open attempts actually made. -/
theorem run_opened (env : Env) (hacq : deviceAcquired env) (hop : openOk env) :
    run env = afterOpen env (bindTrace ++ openTrace env) := by
  obtain ⟨⟨hmd, hms, hdf⟩, hpk, hqf⟩ := hacq
  by_cases ho : env.usbDeviceOpenKr = 0
  · simp [run, bindTrace, openTrace, hmd, hms, hdf, hpk, hqf, ho]
  · have hs : env.usbDeviceOpenSeizeKr = 0 := by
      rcases hop with h | h
      · exact absurd h ho
      · exact h
    simp [run, bindTrace, openTrace, hmd, hms, hdf, hpk, hqf, ho, hs]

/-- Exhaustive description of `afterOpen`'s terminating outcomes:
either one of steps 5-6 fails (exit 1, device teardown after one of
four possible step prefixes), or the session reaches streaming (exit
0, full trace). -/
theorem afterOpen_shape (env : Env) (t0 : List Event) (r : RunResult)
    (h : afterOpen env t0 = some r) :
    (¬ (findInterfaceOk env ∧ bindInterfaceOk env) ∧ r.exitCode = 1 ∧
      ∃ pre,
        (pre = [Event.setConfiguration 1, Event.createInterfaceIterator] ∨
         pre = [Event.setConfiguration 1, Event.createInterfaceIterator,
                Event.releaseIOObject ObjKind.interfaceIterator] ∨
         pre = [Event.setConfiguration 1, Event.createInterfaceIterator,
                Event.releaseIOObject ObjKind.interfaceIterator,
                Event.releaseIOObject ObjKind.interfaceService] ∨
         pre = [Event.setConfiguration 1, Event.createInterfaceIterator,
                Event.releaseIOObject ObjKind.interfaceIterator,
                Event.releaseIOObject ObjKind.interfaceService,
                Event.pluginQueryInterface, Event.pluginReleaseInterface]) ∧
        r.trace = t0 ++ pre ++ teardownDev) ∨
    ((findInterfaceOk env ∧ bindInterfaceOk env) ∧ r.exitCode = 0 ∧
      ∃ pt, pipePhase (env.numEndpoints % 256) = some pt ∧
        r.trace = t0 ++ intfTrace ++ pt ++
          [Event.writePipe 1 dmx, Event.writePipe 2 dmx] ++
          streamLoop env 2 0 200 ++ teardownFull) := by
  by_cases h5a : env.createInterfaceIteratorKr = 0
  · cases h5b : env.interfaceFound with
    | false =>
        left
        refine ⟨fun hc => by simp [findInterfaceOk, h5b] at hc, ?_⟩
        simp [afterOpen, h5a, h5b] at h
        subst h
        refine ⟨rfl, _, Or.inr (Or.inl rfl), ?_⟩
        simp [List.append_assoc]
    | true =>
        by_cases h6a : env.interfacePluginKr = 0
        · cases h6b : env.interfaceQueryFail with
          | true =>
              left
              refine ⟨fun hc => by simp [bindInterfaceOk, h6b] at hc, ?_⟩
              simp [afterOpen, h5a, h5b, h6a, h6b] at h
              subst h
              refine ⟨rfl, _, Or.inr (Or.inr (Or.inr rfl)), ?_⟩
              simp [List.append_assoc]
          | false =>
              right
              refine ⟨⟨⟨h5a, h5b⟩, ⟨h6a, h6b⟩⟩, ?_⟩
              cases hpt : pipePhase (env.numEndpoints % 256) with
              | none => simp [afterOpen, h5a, h5b, h6a, h6b, hpt] at h
              | some pt =>
                  simp [afterOpen, h5a, h5b, h6a, h6b, hpt] at h
                  subst h
                  refine ⟨rfl, pt, rfl, ?_⟩
                  simp [intfTrace, teardownFull, List.append_assoc]
        · left
          refine ⟨fun hc => h6a hc.2.1, ?_⟩
          simp [afterOpen, h5a, h5b, h6a] at h
          subst h
          refine ⟨rfl, _, Or.inr (Or.inr (Or.inl rfl)), ?_⟩
          simp [List.append_assoc]
  · left
    refine ⟨fun hc => h5a hc.1.1, ?_⟩
    simp [afterOpen, h5a] at h
    subst h
    refine ⟨rfl, _, Or.inl rfl, ?_⟩
    simp [List.append_assoc]

/-- Exhaustive description of every terminating run, by which
acquisition step first failed (if any). -/
theorem run_shape (env : Env) (r : RunResult) (h : run env = some r) :
    (¬ matchOk env ∧ r.exitCode = 1 ∧
      (r.trace = [] ∨ r.trace = [Event.releaseIOObject ObjKind.deviceIterator])) ∨
    (matchOk env ∧ ¬ bindDeviceOk env ∧ r.exitCode = 1 ∧
      (r.trace = [Event.releaseIOObject ObjKind.deviceIterator,
                  Event.releaseIOObject ObjKind.deviceService] ∨
       r.trace = bindTrace)) ∨
    (deviceAcquired env ∧ ¬ openOk env ∧ r.exitCode = 1 ∧
      r.trace = bindTrace ++ [Event.usbDeviceOpen, Event.usbDeviceOpenSeize,
                              Event.releaseDeviceInterface]) ∨
    (deviceOpened env ∧ ¬ (findInterfaceOk env ∧ bindInterfaceOk env) ∧ r.exitCode = 1 ∧
      ∃ pre,
        (pre = [Event.setConfiguration 1, Event.createInterfaceIterator] ∨
         pre = [Event.setConfiguration 1, Event.createInterfaceIterator,
                Event.releaseIOObject ObjKind.interfaceIterator] ∨
         pre = [Event.setConfiguration 1, Event.createInterfaceIterator,
                Event.releaseIOObject ObjKind.interfaceIterator,
                Event.releaseIOObject ObjKind.interfaceService] ∨
         pre = [Event.setConfiguration 1, Event.createInterfaceIterator,
                Event.releaseIOObject ObjKind.interfaceIterator,
                Event.releaseIOObject ObjKind.interfaceService,
                Event.pluginQueryInterface, Event.pluginReleaseInterface]) ∧
        r.trace = (bindTrace ++ openTrace env) ++ pre ++ teardownDev) ∨
    (intfAcquired env ∧ r.exitCode = 0 ∧
      ∃ pt, pipePhase (env.numEndpoints % 256) = some pt ∧
        r.trace = (bindTrace ++ openTrace env) ++ intfTrace ++ pt ++
          [Event.writePipe 1 dmx, Event.writePipe 2 dmx] ++
          streamLoop env 2 0 200 ++ teardownFull) := by
  cases hmd : env.matchingDictOk with
  | false =>
      left
      refine ⟨fun hc => by simp [matchOk, hmd] at hc, ?_⟩
      simp [run, hmd] at h
      subst h
      exact ⟨rfl, Or.inl rfl⟩
  | true =>
  by_cases hms : env.getMatchingServicesKr = 0
  case neg =>
      left
      refine ⟨fun hc => hms hc.2.1, ?_⟩
      simp [run, hmd, hms] at h
      subst h
      exact ⟨rfl, Or.inl rfl⟩
  case pos =>
  cases hdf : env.deviceFound with
  | false =>
      left
      refine ⟨fun hc => by simp [matchOk, hdf] at hc, ?_⟩
      simp [run, hmd, hms, hdf] at h
      subst h
      exact ⟨rfl, Or.inr rfl⟩
  | true =>
  have hmatch : matchOk env := ⟨hmd, hms, hdf⟩
  by_cases hpk : env.devicePluginKr = 0
  case neg =>
      right; left
      refine ⟨hmatch, fun hc => hpk hc.1, ?_⟩
      simp [run, hmd, hms, hdf, hpk] at h
      subst h
      exact ⟨rfl, Or.inl rfl⟩
  case pos =>
  cases hqf : env.deviceQueryFail with
  | true =>
      right; left
      refine ⟨hmatch, fun hc => by simp [bindDeviceOk, hqf] at hc, ?_⟩
      simp [run, hmd, hms, hdf, hpk, hqf] at h
      subst h
      refine ⟨rfl, Or.inr ?_⟩
      simp [bindTrace]
  | false =>
  have hacq : deviceAcquired env := ⟨hmatch, hpk, hqf⟩
  by_cases hop : openOk env
  case neg =>
      right; right; left
      have ho1 : ¬ env.usbDeviceOpenKr = 0 := fun hc => hop (Or.inl hc)
      have ho2 : ¬ env.usbDeviceOpenSeizeKr = 0 := fun hc => hop (Or.inr hc)
      refine ⟨hacq, hop, ?_⟩
      simp [run, hmd, hms, hdf, hpk, hqf, ho1, ho2] at h
      subst h
      refine ⟨rfl, ?_⟩
      simp [bindTrace, List.append_assoc]
  case pos =>
  rw [run_opened env hacq hop] at h
  rcases afterOpen_shape env (bindTrace ++ openTrace env) r h with
    ⟨hni, he, pre, hpre, htr⟩ | ⟨hok, he, pt, hpt, htr⟩
  · right; right; right; left
    exact ⟨⟨hacq, hop⟩, hni, he, pre, hpre, htr⟩
  · right; right; right; right
    exact ⟨⟨⟨hacq, hop⟩, hok⟩, he, pt, hpt, htr⟩

/-! ### Small facts about the trace segments -/

theorem openTrace_pos (env : Env) (h : env.usbDeviceOpenKr = 0) :
    openTrace env = [Event.usbDeviceOpen] := by
  simp [openTrace, h]

theorem openTrace_neg (env : Env) (h : env.usbDeviceOpenKr ≠ 0) :
    openTrace env = [Event.usbDeviceOpen, Event.usbDeviceOpenSeize] := by
  simp [openTrace, h]

theorem openTrace_cases (env : Env) :
    openTrace env = [Event.usbDeviceOpen] ∨
    openTrace env = [Event.usbDeviceOpen, Event.usbDeviceOpenSeize] := by
  unfold openTrace
  split
  · exact Or.inl rfl
  · exact Or.inr rfl

/-- No event of a terminated pipe enumeration equals `e` unless `e` is
a query. -/
theorem count_pipeLoop_zero (k i fuel : Nat) (pt : List Event) (e : Event)
    (h : pipeLoopF k i fuel = some pt)
    (he : ∀ j, e ≠ Event.getPipeProperties j) : pt.count e = 0 := by
  rw [List.count_eq_zero]
  intro hmem
  obtain ⟨j, rfl⟩ := pipeLoopF_mem fuel k i pt h e hmem
  exact he j rfl

/-- No event of the streaming loop equals `e` unless `e` is the send
or the sleep. -/
theorem count_streamLoop_zero (env : Env) (rem wc i : Nat) (e : Event)
    (h1 : e ≠ Event.writePipe 1 dmx) (h2 : e ≠ Event.usleep 25000) :
    (streamLoop env wc i rem).count e = 0 := by
  rw [List.count_eq_zero]
  intro hmem
  rcases streamLoop_mem env rem wc i e hmem with rfl | rfl
  · exact h1 rfl
  · exact h2 rfl

theorem bindTrace_notTeardown : ∀ e ∈ bindTrace, notTeardown e = true := by decide

theorem intfTrace_notTeardown : ∀ e ∈ intfTrace, notTeardown e = true := by decide

theorem openTrace_notTeardown (env : Env) :
    ∀ e ∈ openTrace env, notTeardown e = true := by
  rcases openTrace_cases env with h | h <;> rw [h] <;> decide

theorem pipeLoop_notTeardown (k i fuel : Nat) (pt : List Event)
    (h : pipeLoopF k i fuel = some pt) : ∀ e ∈ pt, notTeardown e = true := by
  intro e he
  obtain ⟨j, rfl⟩ := pipeLoopF_mem fuel k i pt h e he
  rfl

theorem streamLoop_notTeardown (env : Env) (rem wc i : Nat) :
    ∀ e ∈ streamLoop env wc i rem, notTeardown e = true := by
  intro e he
  rcases streamLoop_mem env rem wc i e he with rfl | rfl <;> rfl

theorem bindTrace_beforeStream : ∀ e ∈ bindTrace, beforeStream e = true := by decide

theorem intfTrace_beforeStream : ∀ e ∈ intfTrace, beforeStream e = true := by decide

theorem openTrace_beforeStream (env : Env) :
    ∀ e ∈ openTrace env, beforeStream e = true := by
  rcases openTrace_cases env with h | h <;> rw [h] <;> decide

theorem pipeLoop_beforeStream (k i fuel : Nat) (pt : List Event)
    (h : pipeLoopF k i fuel = some pt) : ∀ e ∈ pt, beforeStream e = true := by
  intro e he
  obtain ⟨j, rfl⟩ := pipeLoopF_mem fuel k i pt h e he
  rfl

theorem bindTrace_refsIntf : bindTrace.countP refsIntf = 0 := by decide

theorem openTrace_refsIntf (env : Env) : (openTrace env).countP refsIntf = 0 := by
  rcases openTrace_cases env with h | h <;> rw [h] <;> decide

theorem teardownDev_refsIntf : teardownDev.countP refsIntf = 0 := by decide

/-- The step-5/6 failure prefixes of `run_shape`: the facts about them
the claims need, uniform over the four possible prefixes. -/
theorem pre_facts (pre : List Event)
    (hpre :
      pre = [Event.setConfiguration 1, Event.createInterfaceIterator] ∨
      pre = [Event.setConfiguration 1, Event.createInterfaceIterator,
             Event.releaseIOObject ObjKind.interfaceIterator] ∨
      pre = [Event.setConfiguration 1, Event.createInterfaceIterator,
             Event.releaseIOObject ObjKind.interfaceIterator,
             Event.releaseIOObject ObjKind.interfaceService] ∨
      pre = [Event.setConfiguration 1, Event.createInterfaceIterator,
             Event.releaseIOObject ObjKind.interfaceIterator,
             Event.releaseIOObject ObjKind.interfaceService,
             Event.pluginQueryInterface, Event.pluginReleaseInterface]) :
    pre.count Event.usbDeviceOpenSeize = 0 ∧
    pre.count (Event.setConfiguration 1) = 1 ∧
    pre.count Event.createInterfaceIterator = 1 ∧
    pre.countP refsIntf = 0 ∧
    (∀ e ∈ pre, notTeardown e = true) := by
  rcases hpre with rfl | rfl | rfl | rfl <;>
    exact ⟨by decide, by decide, by decide, by decide, by decide⟩

/-- `run` never reads the configuration status or the interface-open
status: the session is unchanged whatever those two calls return
(steps 4 and 7 are non-fatal and without influence). -/
theorem run_config_independent (env : Env) (sc io : Nat) :
    run { env with setConfigurationKr := sc, usbInterfaceOpenKr := io } = run env := by
  cases env
  rfl

/-- `run` depends on the `WritePipe` statuses only from the third call
on (the statuses of the two standalone writes are never read). -/
theorem run_writes_independent (env : Env) (f : Nat → Nat)
    (hf : ∀ n, 2 ≤ n → f n = env.writePipeKr n) :
    run { env with writePipeKr := f } = run env := by
  have hsl : streamLoop { env with writePipeKr := f } 2 0 200 = streamLoop env 2 0 200 :=
    streamLoop_congr env { env with writePipeKr := f } 200 2 0 hf
  cases env
  simp only [run, afterOpen, hsl]

/-! ### Claim theorems -/

/-- C2: in the streaming loop, if the first send (frame index 0)
returns a non-success status, exactly one send is attempted: the loop
produces the single `WritePipe` event and aborts, with no sleep after
the failed attempt and no further sends, whatever the requested frame
count `n + 1` was. -/
theorem first_send_failure_aborts (env : Env) (wc n : Nat)
    (h : env.writePipeKr wc ≠ 0) :
    streamLoop env wc 0 (n + 1) = [Event.writePipe 1 dmx] := by
  simp [streamLoop, h]

/-- Witness for C2: in `failWriteEnv` the 200-frame loop performs
exactly one send and nothing else. -/
theorem first_send_failure_aborts_witness :
    streamLoop failWriteEnv 2 0 (199 + 1) = [Event.writePipe 1 dmx] :=
  first_send_failure_aborts failWriteEnv 2 199 (by decide)

/-- C8: when the first send succeeds, the streamer sends the frame
`dmx` byte-for-byte unmodified to pipe 1 exactly `n` times (each send
followed by the interval sleep); the right-hand side does not depend
on the statuses of the sends after the first, so a non-success status
on any later send neither interrupts nor alters the remaining sends. -/
theorem stream_sends_all_frames (env : Env) (wc n : Nat)
    (h : env.writePipeKr wc = 0) :
    streamLoop env wc 0 n =
      List.flatten (List.replicate n [Event.writePipe 1 dmx, Event.usleep 25000]) := by
  cases n with
  | zero => simp [streamLoop]
  | succ m =>
      have hcond : ¬(env.writePipeKr wc ≠ 0 ∧ 0 = 0) := by simp [h]
      simp [streamLoop, hcond, h, streamLoop_tail env m (wc + 1) 1 (by omega),
        List.replicate_succ]

/-- Witness for C8: the 200-frame loop of `okEnv` is 200 send/sleep
pairs. -/
theorem stream_sends_all_frames_witness :
    streamLoop okEnv 2 0 200 =
      List.flatten (List.replicate 200 [Event.writePipe 1 dmx, Event.usleep 25000]) :=
  stream_sends_all_frames okEnv 2 200 (by decide)

/-- C10: in a streaming run of `n` frames whose first send succeeds
(later failures do not matter), the interval sleep runs after every
send including the final one: exactly `n` sleep events occur, not
`n - 1`. -/
theorem sleep_after_every_send (env : Env) (wc n : Nat)
    (h : env.writePipeKr wc = 0) :
    (streamLoop env wc 0 n).count (Event.usleep 25000) = n := by
  cases n with
  | zero => simp [streamLoop]
  | succ m =>
      have hcond : ¬(env.writePipeKr wc ≠ 0 ∧ 0 = 0) := by simp [h]
      rw [streamLoop, if_neg hcond, streamLoop_tail env m (wc + 1) 1 (by omega)]
      simp [List.count_cons, count_join_replicate]

/-- Witness for C10: the 200-frame loop of `okEnv` contains exactly
200 sleeps. -/
theorem sleep_after_every_send_witness :
    (streamLoop okEnv 2 0 200).count (Event.usleep 25000) = 200 :=
  sleep_after_every_send okEnv 2 200 (by decide)

/-- C5 counterexample: the streamed frame is `dmx`, and `dmx` is not
the 514-byte frame that is all zero except byte 0 = 255: byte 1 is
225 (the source also sets bytes 4, 512 and 513 to 255). -/
theorem frame_not_all_zero_counterexample :
    dmx ≠ specFrame ∧ dmx.get? 1 = some 225 ∧ specFrame.get? 1 = some 0 ∧
    Event.writePipe 1 dmx ∈ okTrace := by
  refine ⟨by decide, by decide, by decide, by decide⟩

/-- C5 amended: in the end-to-end scenario (`okEnv`: device present,
all calls succeed, one endpoint) the session exits with status 0 and
its streaming loop is exactly 200 sends of the frame `dmx` to pipe 1
(each followed by the interval sleep), where `dmx` is 514 bytes, all
zero except byte 0 = 255, byte 1 = 225, byte 4 = 255, byte 512 = 255
and byte 513 = 255. -/
theorem end_to_end_scenario_amended :
    run okEnv = some ⟨0, okTrace⟩ ∧
    streamLoop okEnv 2 0 200 =
      List.flatten (List.replicate 200 [Event.writePipe 1 dmx, Event.usleep 25000]) ∧
    dmx = (List.range 514).map (fun j =>
      if j = 0 then 255 else if j = 1 then 225 else if j = 4 then 255
      else if j = 512 then 255 else if j = 513 then 255 else 0) := by
  refine ⟨by decide, by decide, by decide⟩

/-- C6 counterexample: for a reported endpoint count of 255 the claim
"exactly K property queries are attempted (indices 1..K)" fails: the
`UInt8` loop index can never exceed the count, so the enumeration
never terminates (here: it exhausts any fuel, e.g. 256 and 2000, and
the whole session with `numEndpoints = 255` has no terminating run). -/
theorem pipe_resolver_255_counterexample :
    pipePhase 255 = none ∧ pipeLoopF 255 1 2000 = none ∧ run env255 = none := by
  refine ⟨pipeLoopF_none 256 1 (by omega), pipeLoopF_none 2000 1 (by omega), by decide⟩

/-- C6 amended: for every reported endpoint count `k ≤ 254` the
resolver attempts exactly `k` property queries, at indices 1 through
`k` inclusive; the trace is the same whatever the individual queries
return, so a failure of the query at index `j` does not prevent the
queries at `j+1 .. k` (the loop never inspects the statuses).  For
`k = 255` the loop does not terminate (see the counterexample). -/
theorem pipe_resolver_queries_amended (k : Nat) (hk : k ≤ 254) :
    pipePhase k =
      some ((List.range k).map fun j => Event.getPipeProperties (1 + j)) :=
  pipeLoopF_sound k 1 256 k (by omega) (by omega) (by omega) hk

/-- Witness for C6 amended: three endpoints give exactly the queries
at indices 1, 2, 3. -/
theorem pipe_resolver_queries_amended_witness :
    pipePhase 3 =
      some ((List.range 3).map fun j => Event.getPipeProperties (1 + j)) :=
  pipe_resolver_queries_amended 3 (by omega)

/-- C4: the process exit status of a terminating session is 0 exactly
when every fatal acquisition step succeeded — step 1 (Match: matching
dictionary, registry search, device found), step 2 (device bind), step
3 (open or seize), step 5 (interface iterator and interface found) and
step 6 (interface bind).  Steps 4 and 7 and every write status
(including a failed first frame write) have no effect on the exit
status. -/
theorem exit_status_iff_fatal_failure (env : Env) (r : RunResult)
    (h : run env = some r) :
    (r.exitCode = 0 ↔
      matchOk env ∧ bindDeviceOk env ∧ openOk env ∧
        findInterfaceOk env ∧ bindInterfaceOk env) := by
  rcases run_shape env r h with
    ⟨hm, he, -⟩ | ⟨hm, hb, he, -⟩ | ⟨hacq, hop, he, -⟩ |
    ⟨hopd, hni, he, -⟩ | ⟨hia, he, -⟩
  · rw [he]
    exact ⟨fun h10 => absurd h10 (by decide), fun hc => absurd hc.1 hm⟩
  · rw [he]
    exact ⟨fun h10 => absurd h10 (by decide), fun hc => absurd hc.2.1 hb⟩
  · rw [he]
    exact ⟨fun h10 => absurd h10 (by decide), fun hc => absurd hc.2.2.1 hop⟩
  · rw [he]
    exact ⟨fun h10 => absurd h10 (by decide),
      fun hc => absurd ⟨hc.2.2.2.1, hc.2.2.2.2⟩ hni⟩
  · rw [he]
    exact ⟨fun _ => ⟨hia.1.1.1, hia.1.1.2, hia.1.2, hia.2.1, hia.2.2⟩, fun _ => rfl⟩

/-- Witness for C4: the success scenario exits with status 0 and all
five fatal steps succeeded. -/
theorem exit_status_iff_fatal_failure_witness :
    ((0 : Nat) = 0 ↔
      matchOk okEnv ∧ bindDeviceOk okEnv ∧ openOk okEnv ∧
        findInterfaceOk okEnv ∧ bindInterfaceOk okEnv) :=
  exit_status_iff_fatal_failure okEnv ⟨0, okTrace⟩ (by decide)

/-- C3: once the device interface is bound, the session makes exactly
one seize attempt when the exclusive open fails (and none when it
succeeds); it fails — exit code 1, no interface-level step (no
interface iterator, no event touching the interface interface) — only
when both attempts fail, and when either attempt succeeds it continues
to the configuration step. -/
theorem open_seize_fallback (env : Env) (r : RunResult)
    (h : run env = some r) (hacq : deviceAcquired env) :
    (env.usbDeviceOpenKr ≠ 0 → r.trace.count Event.usbDeviceOpenSeize = 1) ∧
    (env.usbDeviceOpenKr = 0 → r.trace.count Event.usbDeviceOpenSeize = 0) ∧
    (¬ openOk env → r.exitCode = 1 ∧
      r.trace.count Event.createInterfaceIterator = 0 ∧
      r.trace.countP refsIntf = 0) ∧
    (openOk env → r.trace.count (Event.setConfiguration 1) = 1) := by
  rcases run_shape env r h with
    ⟨hm, he, ht⟩ | ⟨hm, hb, he, ht⟩ | ⟨ha2, hop, he, ht⟩ |
    ⟨hopd, hni, he, pre, hpre, ht⟩ | ⟨hia, he, pt, hpt, ht⟩
  · exact absurd hacq.1 hm
  · exact absurd hacq.2 hb
  · have ho1 : env.usbDeviceOpenKr ≠ 0 := fun hc => hop (Or.inl hc)
    refine ⟨fun _ => ?_, fun hc => absurd hc ho1,
      fun _ => ⟨he, ?_, ?_⟩, fun hc => absurd hc hop⟩
    · rw [ht]; decide
    · rw [ht]; decide
    · rw [ht]; decide
  · have hop := hopd.2
    obtain ⟨hps, hpsc, hpci, -, -⟩ := pre_facts pre hpre
    refine ⟨?_, ?_, fun hno => absurd hop hno, fun _ => ?_⟩
    · intro ho
      rw [ht, openTrace_neg env ho]
      simp [List.count_append, hps, bindTrace, teardownDev]
    · intro ho
      rw [ht, openTrace_pos env ho]
      simp [List.count_append, hps, bindTrace, teardownDev]
    · rcases openTrace_cases env with hh | hh <;>
        · rw [ht, hh]
          simp [List.count_append, hpsc, bindTrace, teardownDev]
  · have hop := hia.1.2
    have hps : pt.count Event.usbDeviceOpenSeize = 0 :=
      count_pipeLoop_zero _ _ _ pt _ hpt (fun j hj => Event.noConfusion hj)
    have hsl : (streamLoop env 2 0 200).count Event.usbDeviceOpenSeize = 0 :=
      count_streamLoop_zero env 200 2 0 _ (by decide) (by decide)
    have hpc : pt.count (Event.setConfiguration 1) = 0 :=
      count_pipeLoop_zero _ _ _ pt _ hpt (fun j hj => Event.noConfusion hj)
    have hslc : (streamLoop env 2 0 200).count (Event.setConfiguration 1) = 0 :=
      count_streamLoop_zero env 200 2 0 _ (by decide) (by decide)
    refine ⟨?_, ?_, fun hno => absurd hop hno, fun _ => ?_⟩
    · intro ho
      rw [ht, openTrace_neg env ho]
      simp [List.count_append, hps, hsl, bindTrace, intfTrace, teardownFull]
    · intro ho
      rw [ht, openTrace_pos env ho]
      simp [List.count_append, hps, hsl, bindTrace, intfTrace, teardownFull]
    · rcases openTrace_cases env with hh | hh <;>
        · rw [ht, hh]
          simp [List.count_append, hpc, hslc, bindTrace, intfTrace, teardownFull]

/-- Witness for C3: in `seizeEnv` (exclusive open fails, seize
succeeds) exactly one seize attempt appears in the trace and the
session continues to configuration. -/
theorem open_seize_fallback_witness :
    (seizeEnv.usbDeviceOpenKr ≠ 0 →
      ((run seizeEnv).getD ⟨1, []⟩).trace.count Event.usbDeviceOpenSeize = 1) ∧
    (seizeEnv.usbDeviceOpenKr = 0 →
      ((run seizeEnv).getD ⟨1, []⟩).trace.count Event.usbDeviceOpenSeize = 0) ∧
    (¬ openOk seizeEnv → ((run seizeEnv).getD ⟨1, []⟩).exitCode = 1 ∧
      ((run seizeEnv).getD ⟨1, []⟩).trace.count Event.createInterfaceIterator = 0 ∧
      ((run seizeEnv).getD ⟨1, []⟩).trace.countP refsIntf = 0) ∧
    (openOk seizeEnv →
      ((run seizeEnv).getD ⟨1, []⟩).trace.count (Event.setConfiguration 1) = 1) :=
  open_seize_fallback seizeEnv ((run seizeEnv).getD ⟨1, []⟩) (by decide) (by decide)

/-- C7: a non-success status from `SetConfiguration` or from
`USBInterfaceOpen` is not fatal: the whole session (trace and exit
code) is identical whatever those statuses are, and once the device is
open the session always performs the configuration call followed by
the interface lookup — and, when the interface is bound, the interface
open followed by the pipe enumeration — regardless of those
statuses. -/
theorem configure_open_nonfatal (env : Env) (sc io : Nat) (r : RunResult)
    (h : run env = some r) (hopd : deviceOpened env) :
    run { env with setConfigurationKr := sc, usbInterfaceOpenKr := io } = run env ∧
    r.trace.count (Event.setConfiguration 1) = 1 ∧
    r.trace.count Event.createInterfaceIterator = 1 ∧
    (intfAcquired env → r.trace.count Event.usbInterfaceOpen = 1 ∧
      r.trace.count Event.getNumEndpoints = 1) := by
  refine ⟨run_config_independent env sc io, ?_⟩
  rcases run_shape env r h with
    ⟨hm, he, ht⟩ | ⟨hm, hb, he, ht⟩ | ⟨ha2, hop, he, ht⟩ |
    ⟨hopd2, hni, he, pre, hpre, ht⟩ | ⟨hia, he, pt, hpt, ht⟩
  · exact absurd hopd.1.1 hm
  · exact absurd hopd.1.2 hb
  · exact absurd hopd.2 hop
  · obtain ⟨-, hpsc, hpci, -, -⟩ := pre_facts pre hpre
    refine ⟨?_, ?_, fun hc => absurd ⟨hc.2.1, hc.2.2⟩ hni⟩
    · rcases openTrace_cases env with hh | hh <;>
        · rw [ht, hh]
          simp [List.count_append, hpsc, bindTrace, teardownDev]
    · rcases openTrace_cases env with hh | hh <;>
        · rw [ht, hh]
          simp [List.count_append, hpci, bindTrace, teardownDev]
  · have hpc : pt.count (Event.setConfiguration 1) = 0 :=
      count_pipeLoop_zero _ _ _ pt _ hpt (fun j hj => Event.noConfusion hj)
    have hpi : pt.count Event.createInterfaceIterator = 0 :=
      count_pipeLoop_zero _ _ _ pt _ hpt (fun j hj => Event.noConfusion hj)
    have hpo : pt.count Event.usbInterfaceOpen = 0 :=
      count_pipeLoop_zero _ _ _ pt _ hpt (fun j hj => Event.noConfusion hj)
    have hpn : pt.count Event.getNumEndpoints = 0 :=
      count_pipeLoop_zero _ _ _ pt _ hpt (fun j hj => Event.noConfusion hj)
    have hsc : (streamLoop env 2 0 200).count (Event.setConfiguration 1) = 0 :=
      count_streamLoop_zero env 200 2 0 _ (by decide) (by decide)
    have hsi : (streamLoop env 2 0 200).count Event.createInterfaceIterator = 0 :=
      count_streamLoop_zero env 200 2 0 _ (by decide) (by decide)
    have hso : (streamLoop env 2 0 200).count Event.usbInterfaceOpen = 0 :=
      count_streamLoop_zero env 200 2 0 _ (by decide) (by decide)
    have hsn : (streamLoop env 2 0 200).count Event.getNumEndpoints = 0 :=
      count_streamLoop_zero env 200 2 0 _ (by decide) (by decide)
    refine ⟨?_, ?_, fun _ => ⟨?_, ?_⟩⟩ <;>
      rcases openTrace_cases env with hh | hh <;>
        · rw [ht, hh]
          simp [List.count_append, hpc, hpi, hpo, hpn, hsc, hsi, hso, hsn,
            bindTrace, intfTrace, teardownFull]

/-- Witness for C7: in the success scenario, altering the two
non-fatal statuses leaves the run unchanged and the expected calls
each appear once. -/
theorem configure_open_nonfatal_witness :
    run { okEnv with setConfigurationKr := 9, usbInterfaceOpenKr := 9 } = run okEnv ∧
    okTrace.count (Event.setConfiguration 1) = 1 ∧
    okTrace.count Event.createInterfaceIterator = 1 ∧
    (intfAcquired okEnv → okTrace.count Event.usbInterfaceOpen = 1 ∧
      okTrace.count Event.getNumEndpoints = 1) :=
  configure_open_nonfatal okEnv 9 9 ⟨0, okTrace⟩ (by decide) (by decide)

/-- C9: on a session that reaches streaming, exactly two standalone
single-frame writes precede the loop: everything from the first
`WritePipe(2, dmx)` event on is that standalone pipe-2 write followed
immediately by the streaming loop and the teardown, and the part of
the trace before it contains exactly one write — the standalone
pipe-1 write.  Neither status is ever read: replacing the statuses of
the first two `WritePipe` calls leaves the whole run (loop, teardown
and exit status) unchanged. -/
theorem standalone_writes_before_loop (env : Env) (f : Nat → Nat) (r : RunResult)
    (hf : ∀ n, 2 ≤ n → f n = env.writePipeKr n)
    (h : run env = some r) (hia : intfAcquired env) :
    run { env with writePipeKr := f } = run env ∧
    r.trace.dropWhile beforeStream =
      Event.writePipe 2 dmx :: (streamLoop env 2 0 200 ++ teardownFull) ∧
    (r.trace.takeWhile beforeStream).count (Event.writePipe 1 dmx) = 1 := by
  refine ⟨run_writes_independent env f hf, ?_⟩
  rcases run_shape env r h with
    ⟨hm, -, -⟩ | ⟨-, hb, -, -⟩ | ⟨-, hop, -, -⟩ | ⟨-, hni, -, -⟩ |
    ⟨-, -, pt, hpt, ht⟩
  · exact absurd hia.1.1.1 hm
  · exact absurd hia.1.1.2 hb
  · exact absurd hia.1.2 hop
  · exact absurd ⟨hia.2.1, hia.2.2⟩ hni
  · have hA : ∀ e ∈ ((bindTrace ++ openTrace env) ++ intfTrace) ++ pt,
        beforeStream e = true := by
      intro e he
      simp only [List.mem_append] at he
      rcases he with ((he | he) | he) | he
      · exact bindTrace_beforeStream e he
      · exact openTrace_beforeStream env e he
      · exact intfTrace_beforeStream e he
      · exact pipeLoop_beforeStream _ _ _ pt hpt e he
    constructor
    · rw [ht,
        List.append_assoc ((((bindTrace ++ openTrace env) ++ intfTrace) ++ pt) ++
          [Event.writePipe 1 dmx, Event.writePipe 2 dmx]) (streamLoop env 2 0 200)
          teardownFull,
        List.append_assoc (((bindTrace ++ openTrace env) ++ intfTrace) ++ pt)
          [Event.writePipe 1 dmx, Event.writePipe 2 dmx]
          (streamLoop env 2 0 200 ++ teardownFull),
        dropWhile_append_all beforeStream _ _ hA]
      simp [List.dropWhile_cons, beforeStream]
    · rw [ht,
        List.append_assoc ((((bindTrace ++ openTrace env) ++ intfTrace) ++ pt) ++
          [Event.writePipe 1 dmx, Event.writePipe 2 dmx]) (streamLoop env 2 0 200)
          teardownFull,
        List.append_assoc (((bindTrace ++ openTrace env) ++ intfTrace) ++ pt)
          [Event.writePipe 1 dmx, Event.writePipe 2 dmx]
          (streamLoop env 2 0 200 ++ teardownFull),
        takeWhile_append_all beforeStream _ _ hA]
      have hp1 : pt.count (Event.writePipe 1 dmx) = 0 :=
        count_pipeLoop_zero _ _ _ pt _ hpt (fun j hj => Event.noConfusion hj)
      rcases openTrace_cases env with hh | hh <;>
        · rw [hh]
          simp [List.count_append, List.takeWhile_cons, beforeStream, hp1,
            bindTrace, intfTrace]

/-- Witness for C9: in the success scenario with both standalone write
statuses replaced, the run is unchanged, and the trace splits around
the standalone pipe-2 write as claimed. -/
theorem standalone_writes_before_loop_witness :
    run { okEnv with writePipeKr := fun n => if n < 2 then 3 else okEnv.writePipeKr n } =
      run okEnv ∧
    okTrace.dropWhile beforeStream =
      Event.writePipe 2 dmx :: (streamLoop okEnv 2 0 200 ++ teardownFull) ∧
    (okTrace.takeWhile beforeStream).count (Event.writePipe 1 dmx) = 1 :=
  standalone_writes_before_loop okEnv
    (fun n => if n < 2 then 3 else okEnv.writePipeKr n) ⟨0, okTrace⟩
    (fun n hn => by simp [Nat.not_lt.mpr hn]) (by decide) (by decide)

/-- C1: every terminating session releases exactly the handles it
acquired, exactly once each, in strict reverse-acquisition order, as
the final suffix of its trace: everything from the first teardown
event on is exactly — interface-interface close then release followed
by device-interface close then release when the interface was
acquired; device close then release when the device was opened but a
later step failed; device release alone when the device interface was
bound but both opens failed; nothing otherwise.  Moreover on a session
that fails before the device bind no event references the device
interface, and on a session that fails before the interface bind no
event references the interface interface (no leaked handle, no use of
a handle from the failing step or later). -/
theorem teardown_reverse_order_every_exit (env : Env) (r : RunResult)
    (h : run env = some r) :
    r.trace.dropWhile notTeardown = teardownTrace env ∧
    (¬ deviceAcquired env → r.trace.countP refsDevice = 0) ∧
    (¬ intfAcquired env → r.trace.countP refsIntf = 0) := by
  rcases run_shape env r h with
    ⟨hm, he, ht⟩ | ⟨hm, hb, he, ht⟩ | ⟨hacq, hop, he, ht⟩ |
    ⟨hopd, hni, he, pre, hpre, ht⟩ | ⟨hia, he, pt, hpt, ht⟩
  · have hnd : ¬ deviceAcquired env := fun hc => hm hc.1
    have hno : ¬ deviceOpened env := fun hc => hnd hc.1
    have hni : ¬ intfAcquired env := fun hc => hno hc.1
    unfold teardownTrace
    rw [if_neg hni, if_neg hno, if_neg hnd]
    rcases ht with ht | ht <;>
      · rw [ht]
        exact ⟨by decide, fun _ => by decide, fun _ => by decide⟩
  · have hnd : ¬ deviceAcquired env := fun hc => hb hc.2
    have hno : ¬ deviceOpened env := fun hc => hnd hc.1
    have hni : ¬ intfAcquired env := fun hc => hno hc.1
    unfold teardownTrace
    rw [if_neg hni, if_neg hno, if_neg hnd]
    rcases ht with ht | ht <;>
      · rw [ht]
        exact ⟨by decide, fun _ => by decide, fun _ => by decide⟩
  · have hno : ¬ deviceOpened env := fun hc => hop hc.2
    have hni : ¬ intfAcquired env := fun hc => hno hc.1
    unfold teardownTrace
    rw [if_neg hni, if_neg hno, if_pos hacq]
    rw [ht]
    exact ⟨by decide, fun hc => absurd hacq hc, fun _ => by decide⟩
  · have hni4 : ¬ intfAcquired env := fun hc => hni ⟨hc.2.1, hc.2.2⟩
    obtain ⟨-, -, -, hri, hnt⟩ := pre_facts pre hpre
    unfold teardownTrace
    rw [if_neg hni4, if_pos hopd]
    have hall : ∀ e ∈ (bindTrace ++ openTrace env) ++ pre, notTeardown e = true := by
      intro e he
      simp only [List.mem_append] at he
      rcases he with (he | he) | he
      · exact bindTrace_notTeardown e he
      · exact openTrace_notTeardown env e he
      · exact hnt e he
    refine ⟨?_, fun hc => absurd hopd.1 hc, fun _ => ?_⟩
    · rw [ht, dropWhile_append_all notTeardown _ teardownDev hall]
      decide
    · rw [ht]
      have hb0 : bindTrace.countP refsIntf = 0 := bindTrace_refsIntf
      have ho0 : (openTrace env).countP refsIntf = 0 := openTrace_refsIntf env
      simp [List.countP_append, hb0, ho0, hri, teardownDev_refsIntf]
  · unfold teardownTrace
    rw [if_pos hia]
    have hall : ∀ e ∈ ((((bindTrace ++ openTrace env) ++ intfTrace) ++ pt) ++
        [Event.writePipe 1 dmx, Event.writePipe 2 dmx]) ++ streamLoop env 2 0 200,
        notTeardown e = true := by
      intro e he
      simp only [List.mem_append] at he
      rcases he with ((((he | he) | he) | he) | he) | he
      · exact bindTrace_notTeardown e he
      · exact openTrace_notTeardown env e he
      · exact intfTrace_notTeardown e he
      · exact pipeLoop_notTeardown _ _ _ pt hpt e he
      · simp only [List.mem_cons, List.not_mem_nil, or_false] at he
        rcases he with rfl | rfl <;> decide
      · exact streamLoop_notTeardown env 200 2 0 e he
    refine ⟨?_, fun hc => absurd hia.1.1 hc, fun hc => absurd hia hc⟩
    rw [ht, dropWhile_append_all notTeardown _ teardownFull hall]
    decide

/-- Witness for C1: the success scenario's trace ends with the full
reverse-order teardown. -/
theorem teardown_reverse_order_every_exit_witness :
    okTrace.dropWhile notTeardown = teardownTrace okEnv ∧
    (¬ deviceAcquired okEnv → okTrace.countP refsDevice = 0) ∧
    (¬ intfAcquired okEnv → okTrace.countP refsIntf = 0) :=
  teardown_reverse_order_every_exit okEnv ⟨0, okTrace⟩ (by decide)

end IOKitEp2
